import Mathlib

/-!
Verification of the beat-the-chain score-submission core.

Shallow embedding of:
* src/app/api/game-results/route.ts  (POST handler: validation + leaderboard upsert)
* src/lib/server-scoring.ts          (calculateScore, calculateRank)
* src/lib/scores.ts                  (calculateAccuracyWeightedScore, getLeaderboard)

The repository also contains a start-run endpoint issuing single-use run
tokens, and src/lib/types.ts declares a GameResultSubmission wire type
carrying run_id and token; the submission handler embedded here never
reads or redeems them — no session state appears among its inputs.

JavaScript numbers are embedded as rationals (ℚ); machine floating point
is not modelled.  Database tables are embedded as lists of rows, and the
Supabase calls of the handler as pure state-passing functions.
-/

/-- The six rank labels accepted by the submission endpoint
(src/app/api/game-results/route.ts, ALLOWED_RANKS). -/
def ALLOWED_RANKS : List String :=
  [ "Grandmaster of Speed 👑"
  , "Turbo Typelord 💎"
  , "Chain Slayer ⚔️"
  , "Speed Operator 🥇"
  , "Latency Warrior 🥈"
  , "Typing Rookie 🥉" ]

/-- Request body of the submission endpoint (src/lib/types.ts, GameResult).
The optional isTwitterUser field is embedded already defaulted (`?? false`). -/
structure GameResult where
  player_name : String
  score : ℚ
  lps : ℚ
  accuracy : ℚ
  rank : String
  time : ℚ
  ms_per_letter : ℚ
  game_mode : ℤ
  isTwitterUser : Bool
deriving DecidableEq

/-- Character class of the player-name pattern [a-zA-Z0-9._-]. -/
def isNameChar (c : Char) : Bool :=
  c.isAlpha || c.isDigit || c = '.' || c = '_' || c = '-'

/-- The name format check of route.ts: /^[a-zA-Z0-9._-]{3,50}$/. -/
def nameOk (s : String) : Bool :=
  decide (3 ≤ s.data.length) && decide (s.data.length ≤ 50) && s.data.all isNameChar

/-- The lps range gate of route.ts (lines 59-64): body.lps < 0 || body.lps > 100
rejects, everything else passes. -/
def lpsGateOk (lps : ℚ) : Bool :=
  !(decide (lps < 0) || decide (lps > 100))

/-- baseScore of route.ts line 88: lps * Math.pow(accuracy / 100, 2). -/
def jsBaseScore (lps accuracy : ℚ) : ℚ :=
  lps * (accuracy / 100) ^ 2

/-- The validation pipeline of the POST handler in
src/app/api/game-results/route.ts, in source order; returns the first
error message, or none when the submission passes every check.
In the last check, 1000 / lps is the JavaScript expression at line 102:
when lps = 0 it evaluates to Infinity there and the difference check
always rejects, which the lps = 0 disjunct reproduces. -/
def validateGameResult (b : GameResult) : Option String :=
  if b.player_name = "" then some "Missing required fields"
  else if b.rank = "" ∨ b.rank ∉ ALLOWED_RANKS then some "Invalid rank"
  else if ¬ nameOk b.player_name then some "Invalid player name format"
  else if ¬ (b.game_mode = 15 ∨ b.game_mode = 30) then some "Invalid game mode"
  else if b.score < 0 ∨ b.score > 10000 then some "Score out of valid range"
  else if ¬ lpsGateOk b.lps then some "LPS out of valid range"
  else if b.accuracy < 0 ∨ b.accuracy > 100 then some "Accuracy out of valid range"
  else if b.ms_per_letter < 0 ∨ b.ms_per_letter > 1000000 then
    some "ms_per_letter out of valid range"
  else if b.score > jsBaseScore b.lps b.accuracy * (3 / 2)
          ∨ b.score < jsBaseScore b.lps b.accuracy * (9 / 10) then
    some "Score calculation mismatch"
  else if b.lps = 0 ∨ |b.ms_per_letter - 1000 / b.lps| > 10 then
    some "ms_per_letter calculation mismatch"
  else none

/-- A stored row of the game_results table. -/
structure StoredResult where
  id : ℕ
  player_name : String
  score : ℚ
  lps : ℚ
  accuracy : ℚ
  rank : String
  time : ℚ
  ms_per_letter : ℚ
  game_mode : ℤ
  isTwitterUser : Bool
deriving DecidableEq

/-- Outcome of the POST handler: an error response, or a success response
carrying isNewBest and the record id. -/
inductive PostOutcome where
  | apiError (msg : String)
  | ok (isNewBest : Bool) (id : Option ℕ)
deriving DecidableEq

/-- The rows the handler's existing-record query ranges over:
.eq(player_name).eq(game_mode). -/
def matchingRows (db : List StoredResult) (name : String) (mode : ℤ) : List StoredResult :=
  db.filter fun r => decide (r.player_name = name) && decide (r.game_mode = mode)

/-- .order(score, descending).limit(1): the highest-scoring row, if any
(the earliest such row on ties). -/
def bestRow : List StoredResult → Option StoredResult
  | [] => none
  | r :: rs =>
    match bestRow rs with
    | none => some r
    | some b => if b.score > r.score then some b else some r

/-- The row inserted by the no-existing-record branch of the handler. -/
def insertedRow (id : ℕ) (b : GameResult) : StoredResult :=
  { id := id
  , player_name := b.player_name
  , score := b.score
  , lps := b.lps
  , accuracy := b.accuracy
  , rank := b.rank
  , time := b.time
  , ms_per_letter := b.ms_per_letter
  , game_mode := b.game_mode
  , isTwitterUser := b.isTwitterUser }

/-- The update payload of the better-score branch: the handler overwrites
score, lps, accuracy, rank, time, ms_per_letter and isTwitterUser, and
leaves id, player_name, game_mode untouched. -/
def overwriteRow (r : StoredResult) (b : GameResult) : StoredResult :=
  { r with
    score := b.score
  , lps := b.lps
  , accuracy := b.accuracy
  , rank := b.rank
  , time := b.time
  , ms_per_letter := b.ms_per_letter
  , isTwitterUser := b.isTwitterUser }

/-- The POST handler of src/app/api/game-results/route.ts as a state-passing
function: validation, then the compare-and-replace on (player_name, game_mode).
nextId stands for the id the database would assign to a fresh row. -/
def postGameResult (db : List StoredResult) (nextId : ℕ) (b : GameResult) :
    PostOutcome × List StoredResult :=
  match validateGameResult b with
  | some e => (.apiError e, db)
  | none =>
    match bestRow (matchingRows db b.player_name b.game_mode) with
    | some ex =>
      if b.score > ex.score then
        (.ok true (some ex.id),
         db.map fun r => if r.id = ex.id then overwriteRow r b else r)
      else
        (.ok false (some ex.id), db)
    | none => (.ok true (some nextId), db ++ [insertedRow nextId b])

/-- calculateScore of src/lib/server-scoring.ts, verbatim over ℚ. -/
def calculateScore (lps accuracy gameMode totalErrors correctedErrors totalLetters : ℚ) : ℚ :=
  let correctionRate := if totalErrors > 0 then correctedErrors / totalErrors else 0
  let errorRate := if totalLetters > 0 then totalErrors / totalLetters else 0
  let correctionBonus := correctionRate * (1 - min (errorRate * 10) (1 / 2)) * (15 / 100)
  let accuracyDecimal := accuracy / 100
  let baseScore := lps * (accuracyDecimal * accuracyDecimal)
  let scoreWithCorrection := baseScore * (1 + correctionBonus)
  let gameModeMultiplier := if gameMode = 30 then (122 / 100 : ℚ) else 1
  scoreWithCorrection * gameModeMultiplier

/-- The score formula as the spec states it (claim C3's statement of it),
kept separate from the source translation so the two can be compared. -/
def scoreFormulaSpec (lps accuracy gameMode totalErrors correctedErrors totalLetters : ℚ) : ℚ :=
  let correctionRate := if totalErrors > 0 then correctedErrors / totalErrors else 0
  let errorRate := if totalLetters > 0 then totalErrors / totalLetters else 0
  lps * (accuracy / 100) ^ 2
    * (1 + correctionRate * (1 - min (errorRate * 10) (1 / 2)) * (15 / 100))
    * (if gameMode = 30 then (122 / 100 : ℚ) else 1)

/-- calculateRank of src/lib/server-scoring.ts: six tiers, evaluated
top-down, each gated by a score floor and an accuracy floor. -/
def calculateRank (score accuracy : ℚ) : String :=
  if score ≥ 14 ∧ accuracy ≥ 98 then "Grandmaster of Speed 👑"
  else if score ≥ 11 ∧ accuracy ≥ 95 then "Turbo Typelord 💎"
  else if score ≥ 7 ∧ accuracy ≥ 90 then "Chain Slayer ⚔️"
  else if score ≥ 4 ∧ accuracy ≥ 85 then "Speed Operator 🥇"
  else if score ≥ 1 ∧ accuracy ≥ 80 then "Latency Warrior 🥈"
  else "Typing Rookie 🥉"

/-- Height of a rank label in the tier ladder, 6 = top, 1 = floor. -/
def rankTier (label : String) : ℕ :=
  if label = "Grandmaster of Speed 👑" then 6
  else if label = "Turbo Typelord 💎" then 5
  else if label = "Chain Slayer ⚔️" then 4
  else if label = "Speed Operator 🥇" then 3
  else if label = "Latency Warrior 🥈" then 2
  else 1

/-- The numeric tier directly from score and accuracy; proved equal to
rankTier ∘ calculateRank below. -/
def tierOf (score accuracy : ℚ) : ℕ :=
  if score ≥ 14 ∧ accuracy ≥ 98 then 6
  else if score ≥ 11 ∧ accuracy ≥ 95 then 5
  else if score ≥ 7 ∧ accuracy ≥ 90 then 4
  else if score ≥ 4 ∧ accuracy ≥ 85 then 3
  else if score ≥ 1 ∧ accuracy ≥ 80 then 2
  else 1

/-- calculateAccuracyWeightedScore of src/lib/scores.ts:
lps * (accuracy/100) * (accuracy/100). -/
def calculateAccuracyWeightedScore (lps accuracy : ℚ) : ℚ :=
  let accuracyDecimal := accuracy / 100
  lps * (accuracyDecimal * accuracyDecimal)

/-- The three-level comparator of getLeaderboard (src/lib/scores.ts
lines 214-225), returned as the signed number the JavaScript comparator
returns: positive means b sorts before a. -/
def leaderboardCompare (a b : StoredResult) : ℚ :=
  let wa := calculateAccuracyWeightedScore a.lps a.accuracy
  let wb := calculateAccuracyWeightedScore b.lps b.accuracy
  if |wb - wa| > 1 / 10000 then wb - wa
  else if |b.accuracy - a.accuracy| > 1 / 100 then b.accuracy - a.accuracy
  else b.lps - a.lps

/-- a may appear no later than b in the sorted leaderboard. -/
def leaderboardLe (a b : StoredResult) : Prop :=
  leaderboardCompare a b ≤ 0

instance : DecidableRel leaderboardLe := fun a b =>
  inferInstanceAs (Decidable (leaderboardCompare a b ≤ 0))

/-- getLeaderboard of src/lib/scores.ts: filter to the requested mode
(the query fetches at most 10000 rows), sort by the comparator
(sorting embedded as insertion sort with respect to leaderboardLe),
return the first limit entries. -/
def getLeaderboard (db : List StoredResult) (gameMode : ℤ) (limit : ℕ) : List StoredResult :=
  ((((db.filter fun r => decide (r.game_mode = gameMode)).take 10000).insertionSort
      leaderboardLe).take limit)

/-- A concrete submission: base score lps * (accuracy/100)^2 = 10, client-sent
score 12 inside the accepted window [9, 15]. -/
def exBody12 : GameResult :=
  { player_name := "alice", score := 12, lps := 10, accuracy := 100
  , rank := "Typing Rookie 🥉", time := 10, ms_per_letter := 100
  , game_mode := 15, isTwitterUser := false }

/-- A concrete submission with time = 0 seconds and every other field valid. -/
def exBodyT0 : GameResult :=
  { player_name := "alice", score := 10, lps := 10, accuracy := 100
  , rank := "Chain Slayer ⚔️", time := 0, ms_per_letter := 100
  , game_mode := 15, isTwitterUser := false }

/-- A concrete submission with lps = 60.0001 and consistent
ms_per_letter = 1000 / lps. -/
def exBody60 : GameResult :=
  { player_name := "alice", score := 600001 / 10000, lps := 600001 / 10000
  , accuracy := 100, rank := "Chain Slayer ⚔️", time := 10
  , ms_per_letter := 10000000 / 600001, game_mode := 15, isTwitterUser := false }

/-- A concrete submission whose ms_per_letter is off from 1000 / lps by
exactly 7 ms. -/
def exBody107 : GameResult :=
  { player_name := "alice", score := 10, lps := 10, accuracy := 100
  , rank := "Chain Slayer ⚔️", time := 10, ms_per_letter := 107
  , game_mode := 15, isTwitterUser := false }

/-- A concrete submission whose ms_per_letter is off from 1000 / lps by
100 ms, beyond the tolerance. -/
def exBodyMsBad : GameResult :=
  { player_name := "alice", score := 10, lps := 10, accuracy := 100
  , rank := "Chain Slayer ⚔️", time := 10, ms_per_letter := 200
  , game_mode := 15, isTwitterUser := false }

/-- A forged submission for which no run session was ever issued: the
GameResult wire type carries no run_id or token field at all. -/
def exBodyForged : GameResult :=
  { player_name := "mallory", score := 15, lps := 12, accuracy := 100
  , rank := "Grandmaster of Speed 👑", time := 2, ms_per_letter := 250 / 3
  , game_mode := 15, isTwitterUser := false }

/-- A stored row with the highest stored score but the lowest read-time
accuracy-weighted score (weighted score 1). -/
def exRowA : StoredResult :=
  { id := 1, player_name := "alice", score := 100, lps := 1, accuracy := 100
  , rank := "Chain Slayer ⚔️", time := 10, ms_per_letter := 1000
  , game_mode := 15, isTwitterUser := false }

/-- A stored row with the lowest stored score but the highest read-time
accuracy-weighted score (weighted score 5). -/
def exRowB : StoredResult :=
  { id := 2, player_name := "bob", score := 1, lps := 5, accuracy := 100
  , rank := "Chain Slayer ⚔️", time := 10, ms_per_letter := 200
  , game_mode := 15, isTwitterUser := false }

theorem validateGameResult_none_facts {b : GameResult}
    (h : validateGameResult b = none) :
    b.rank ∈ ALLOWED_RANKS ∧
    (b.game_mode = 15 ∨ b.game_mode = 30) ∧
    0 ≤ b.score ∧ b.score ≤ 10000 ∧
    0 ≤ b.lps ∧ b.lps ≤ 100 ∧
    0 ≤ b.accuracy ∧ b.accuracy ≤ 100 ∧
    0 ≤ b.ms_per_letter ∧ b.ms_per_letter ≤ 1000000 ∧
    jsBaseScore b.lps b.accuracy * (9 / 10) ≤ b.score ∧
    b.score ≤ jsBaseScore b.lps b.accuracy * (3 / 2) ∧
    b.lps ≠ 0 ∧ |b.ms_per_letter - 1000 / b.lps| ≤ 10 := by
  unfold validateGameResult at h
  by_cases h1 : b.player_name = ""
  · rw [if_pos h1] at h; simp at h
  rw [if_neg h1] at h
  by_cases h2 : b.rank = "" ∨ b.rank ∉ ALLOWED_RANKS
  · rw [if_pos h2] at h; simp at h
  rw [if_neg h2] at h
  by_cases h3 : ¬ nameOk b.player_name = true
  · rw [if_pos h3] at h; simp at h
  rw [if_neg h3] at h
  by_cases h4 : ¬ (b.game_mode = 15 ∨ b.game_mode = 30)
  · rw [if_pos h4] at h; simp at h
  rw [if_neg h4] at h
  by_cases h5 : b.score < 0 ∨ b.score > 10000
  · rw [if_pos h5] at h; simp at h
  rw [if_neg h5] at h
  by_cases h6 : ¬ lpsGateOk b.lps = true
  · rw [if_pos h6] at h; simp at h
  rw [if_neg h6] at h
  by_cases h7 : b.accuracy < 0 ∨ b.accuracy > 100
  · rw [if_pos h7] at h; simp at h
  rw [if_neg h7] at h
  by_cases h8 : b.ms_per_letter < 0 ∨ b.ms_per_letter > 1000000
  · rw [if_pos h8] at h; simp at h
  rw [if_neg h8] at h
  by_cases h9 : b.score > jsBaseScore b.lps b.accuracy * (3 / 2)
      ∨ b.score < jsBaseScore b.lps b.accuracy * (9 / 10)
  · rw [if_pos h9] at h; simp at h
  rw [if_neg h9] at h
  by_cases h10 : b.lps = 0 ∨ |b.ms_per_letter - 1000 / b.lps| > 10
  · rw [if_pos h10] at h; simp at h
  push_neg at h2 h5 h7 h8 h9 h10
  have hg := not_not.mp h6
  simp only [lpsGateOk, Bool.not_eq_true', Bool.or_eq_false_iff,
    decide_eq_false_iff_not, not_lt] at hg
  exact ⟨h2.2, not_not.mp h4, h5.1, h5.2, hg.1, hg.2,
    h7.1, h7.2, h8.1, h8.2, h9.2, h9.1, h10.1, h10.2⟩

theorem postGameResult_written {db : List StoredResult} {nextId : ℕ} {b : GameResult}
    {r : StoredResult} (hr : r ∈ (postGameResult db nextId b).2) :
    r ∈ db ∨ (validateGameResult b = none ∧ r.score = b.score ∧ r.rank = b.rank) := by
  cases hv : validateGameResult b with
  | some e =>
    simp only [postGameResult, hv] at hr
    exact Or.inl hr
  | none =>
    cases hbest : bestRow (matchingRows db b.player_name b.game_mode) with
    | none =>
      simp only [postGameResult, hv, hbest] at hr
      rcases List.mem_append.mp hr with hmem | hmem
      · exact Or.inl hmem
      · have hre : r = insertedRow nextId b := by simpa using hmem
        exact Or.inr ⟨rfl, by rw [hre]; exact rfl, by rw [hre]; exact rfl⟩
    | some ex =>
      by_cases hsc : b.score > ex.score
      · simp only [postGameResult, hv, hbest, if_pos hsc] at hr
        rcases List.mem_map.mp hr with ⟨a, ha, hfa⟩
        by_cases hid : a.id = ex.id
        · rw [if_pos hid] at hfa
          exact Or.inr ⟨rfl, by rw [← hfa]; exact rfl, by rw [← hfa]; exact rfl⟩
        · rw [if_neg hid] at hfa
          exact Or.inl (hfa ▸ ha)
      · simp only [postGameResult, hv, hbest, if_neg hsc] at hr
        exact Or.inl hr

theorem post_insert {db : List StoredResult} {nextId : ℕ} {b : GameResult}
    (hv : validateGameResult b = none)
    (hm : matchingRows db b.player_name b.game_mode = []) :
    postGameResult db nextId b = (.ok true (some nextId), db ++ [insertedRow nextId b]) := by
  simp [postGameResult, hv, hm, bestRow]

theorem post_update {db : List StoredResult} {nextId : ℕ} {b : GameResult} {ex : StoredResult}
    (hv : validateGameResult b = none)
    (hbest : bestRow (matchingRows db b.player_name b.game_mode) = some ex)
    (hsc : b.score > ex.score) :
    postGameResult db nextId b =
      (.ok true (some ex.id), db.map fun r => if r.id = ex.id then overwriteRow r b else r) := by
  simp [postGameResult, hv, hbest, if_pos hsc]

theorem post_keep {db : List StoredResult} {nextId : ℕ} {b : GameResult} {ex : StoredResult}
    (hv : validateGameResult b = none)
    (hbest : bestRow (matchingRows db b.player_name b.game_mode) = some ex)
    (hle : b.score ≤ ex.score) :
    postGameResult db nextId b = (.ok false (some ex.id), db) := by
  simp [postGameResult, hv, hbest, if_neg (not_lt.mpr hle)]

theorem matchingRows_self_append {db : List StoredResult} {nextId : ℕ} {b : GameResult}
    (hm : matchingRows db b.player_name b.game_mode = []) :
    matchingRows (db ++ [insertedRow nextId b]) b.player_name b.game_mode
      = [insertedRow nextId b] := by
  unfold matchingRows at hm ⊢
  rw [List.filter_append, hm]
  simp [insertedRow]

theorem validate_exBody12 : validateGameResult exBody12 = none := by
  simp only [validateGameResult, exBody12]
  norm_num [ALLOWED_RANKS, lpsGateOk, jsBaseScore, abs_le]
  decide

theorem post_exBody12 :
    postGameResult [] 1 exBody12 = (.ok true (some 1), [insertedRow 1 exBody12]) :=
  post_insert validate_exBody12 rfl

theorem validate_exBodyT0 : validateGameResult exBodyT0 = none := by
  simp only [validateGameResult, exBodyT0]
  norm_num [ALLOWED_RANKS, lpsGateOk, jsBaseScore, abs_le]
  decide

theorem validate_exBody60 : validateGameResult exBody60 = none := by
  simp only [validateGameResult, exBody60]
  norm_num [ALLOWED_RANKS, lpsGateOk, jsBaseScore, abs_le]
  decide

theorem validate_exBody107 : validateGameResult exBody107 = none := by
  simp only [validateGameResult, exBody107]
  norm_num [ALLOWED_RANKS, lpsGateOk, jsBaseScore, abs_le]
  decide

theorem validate_exBodyMsBad :
    validateGameResult exBodyMsBad = some "ms_per_letter calculation mismatch" := by
  simp only [validateGameResult, exBodyMsBad]
  norm_num [ALLOWED_RANKS, lpsGateOk, jsBaseScore, abs_le, lt_abs]
  decide

theorem validate_exBodyForged : validateGameResult exBodyForged = none := by
  simp only [validateGameResult, exBodyForged]
  norm_num [ALLOWED_RANKS, lpsGateOk, jsBaseScore, abs_le]
  decide

theorem rankTier_calculateRank (s a : ℚ) :
    rankTier (calculateRank s a) = tierOf s a := by
  unfold calculateRank tierOf
  split_ifs <;> simp [rankTier]

theorem leaderboardLe_total : ∀ a b : StoredResult, leaderboardLe a b ∨ leaderboardLe b a := by
  intro a b
  simp only [leaderboardLe, leaderboardCompare]
  set wa := calculateAccuracyWeightedScore a.lps a.accuracy with hwa
  set wb := calculateAccuracyWeightedScore b.lps b.accuracy with hwb
  by_cases h1 : |wb - wa| > 1 / 10000
  · have h1' : |wa - wb| > 1 / 10000 := by rwa [abs_sub_comm]
    rw [if_pos h1, if_pos h1']
    rcases le_total wa wb with h | h
    · right; linarith
    · left; linarith
  · have h1' : ¬ |wa - wb| > 1 / 10000 := by rwa [abs_sub_comm]
    rw [if_neg h1, if_neg h1']
    by_cases h2 : |b.accuracy - a.accuracy| > 1 / 100
    · have h2' : |a.accuracy - b.accuracy| > 1 / 100 := by rwa [abs_sub_comm]
      rw [if_pos h2, if_pos h2']
      rcases le_total a.accuracy b.accuracy with h | h
      · right; linarith
      · left; linarith
    · have h2' : ¬ |a.accuracy - b.accuracy| > 1 / 100 := by rwa [abs_sub_comm]
      rw [if_neg h2, if_neg h2']
      rcases le_total a.lps b.lps with h | h
      · right; linarith
      · left; linarith

theorem head?_orderedInsert {α : Type} (r : α → α → Prop) [DecidableRel r] (x : α)
    (l : List α) :
    (l.orderedInsert r x).head? = some x ∨ (l.orderedInsert r x).head? = l.head? := by
  cases l with
  | nil => left; rfl
  | cons b t =>
    by_cases h : r x b
    · left; simp [List.orderedInsert, h]
    · right; simp [List.orderedInsert, h]

theorem chain'_orderedInsert {α : Type} (r : α → α → Prop) [DecidableRel r]
    (tot : ∀ a b, r a b ∨ r b a) (x : α) :
    ∀ l : List α, l.Chain' r → (l.orderedInsert r x).Chain' r := by
  intro l
  induction l with
  | nil => intro _; simp [List.orderedInsert]
  | cons b t ih =>
    intro hc
    by_cases h : r x b
    · simp only [List.orderedInsert, if_pos h]
      exact List.chain'_cons.mpr ⟨h, hc⟩
    · simp only [List.orderedInsert, if_neg h]
      rw [List.chain'_cons']
      refine ⟨?_, ih hc.tail⟩
      intro y hy
      rcases head?_orderedInsert r x t with hh | hh
      · rw [hh] at hy
        simp only [Option.mem_def, Option.some.injEq] at hy
        subst hy
        rcases tot x b with hxb | hbx
        · exact absurd hxb h
        · exact hbx
      · rw [hh] at hy
        exact (List.chain'_cons'.mp hc).1 y hy

theorem chain'_insertionSort {α : Type} (r : α → α → Prop) [DecidableRel r]
    (tot : ∀ a b, r a b ∨ r b a) :
    ∀ l : List α, (l.insertionSort r).Chain' r := by
  intro l
  induction l with
  | nil => simp [List.insertionSort]
  | cons a l ih =>
    simp only [List.insertionSort]
    exact chain'_orderedInsert r tot a _ ih

theorem getLeaderboard_exRows :
    getLeaderboard [exRowA, exRowB] 15 10 = [exRowB, exRowA] := by
  have hAB : ¬ leaderboardLe exRowA exRowB := by
    simp only [leaderboardLe, leaderboardCompare, calculateAccuracyWeightedScore,
      exRowA, exRowB]
    norm_num
  unfold getLeaderboard
  rw [show (([exRowA, exRowB].filter fun r => decide (r.game_mode = 15)))
      = [exRowA, exRowB] from by simp [exRowA, exRowB]]
  rw [show ([exRowA, exRowB].take 10000) = [exRowA, exRowB] from
    List.take_of_length_le (by norm_num)]
  rw [show ([exRowA, exRowB].insertionSort leaderboardLe) = [exRowB, exRowA] from by
    simp [List.insertionSort, List.orderedInsert, hAB]]
  exact List.take_of_length_le (by norm_num)

/-- C1, counterexample.  The submission exBody12 is accepted; the handler
writes the client-sent score 12 verbatim to the leaderboard, while the
server-side recomputation calculateScore(lps, accuracy, 15, 0, 0, 15)
yields 10: the stored score is the client's, not a recomputation. -/
theorem C1_counterexample :
    (postGameResult [] 1 exBody12).1 = .ok true (some 1) ∧
    (postGameResult [] 1 exBody12).2 = [insertedRow 1 exBody12] ∧
    (insertedRow 1 exBody12).score = 12 ∧
    calculateScore exBody12.lps exBody12.accuracy 15 0 0 15 = 10 ∧
    (insertedRow 1 exBody12).score
      ≠ calculateScore exBody12.lps exBody12.accuracy 15 0 0 15 := by
  refine ⟨by rw [post_exBody12], by rw [post_exBody12], rfl, ?_, ?_⟩
  · norm_num [calculateScore, exBody12]
  · norm_num [calculateScore, insertedRow, exBody12]

/-- C1, amended.  Every row the submission endpoint writes stores the
client-sent score field verbatim; the only server-side constraints on it
are 0 ≤ score ≤ 10000 and the plausibility window
[0.9 · base, 1.5 · base] around base = lps · (accuracy/100)²; no
recomputation from error counts and no [0, 20] bound exist. -/
theorem C1_score_stored_verbatim :
    ∀ (db : List StoredResult) (nextId : ℕ) (b : GameResult),
    ∀ r ∈ (postGameResult db nextId b).2,
    r ∈ db ∨
    (r.score = b.score ∧ 0 ≤ b.score ∧ b.score ≤ 10000 ∧
     jsBaseScore b.lps b.accuracy * (9 / 10) ≤ b.score ∧
     b.score ≤ jsBaseScore b.lps b.accuracy * (3 / 2)) := by
  intro db nextId b r hr
  rcases postGameResult_written hr with hmem | ⟨hv, hs, -⟩
  · exact Or.inl hmem
  · have hf := validateGameResult_none_facts hv
    exact Or.inr ⟨hs, hf.2.2.1, hf.2.2.2.1, hf.2.2.2.2.2.2.2.2.2.2.1,
      hf.2.2.2.2.2.2.2.2.2.2.2.1⟩

/-- C1, witness: the amended theorem applied to the accepted submission
exBody12 and the row it inserts. -/
theorem C1_witness :
    (insertedRow 1 exBody12).score = exBody12.score ∧ 0 ≤ exBody12.score ∧
    exBody12.score ≤ 10000 ∧
    jsBaseScore exBody12.lps exBody12.accuracy * (9 / 10) ≤ exBody12.score ∧
    exBody12.score ≤ jsBaseScore exBody12.lps exBody12.accuracy * (3 / 2) := by
  have h := C1_score_stored_verbatim [] 1 exBody12 (insertedRow 1 exBody12)
    (by simp [post_exBody12])
  rcases h with hmem | hgood
  · exact absurd hmem (List.not_mem_nil _)
  · exact hgood

/-- C2.  The result-submission endpoint (src/app/api/game-results/route.ts
POST) accepts submissions with no run token at all: its request body has no
run_id or token field, it consults and mutates no run-session state, and the
forged submission exBodyForged — for which no run session was ever issued —
passes validation and is written to the leaderboard.  The single-use-token
gate the claim describes is absent from the implemented submit path, even
though the start-run endpoint issues such tokens and src/lib/types.ts
declares the token-bearing GameResultSubmission wire type. -/
theorem C2_no_token_gate :
    postGameResult [] 1 exBodyForged = (.ok true (some 1), [insertedRow 1 exBodyForged]) :=
  post_insert validate_exBodyForged rfl

/-- C3.  For inputs with totalErrors = correctedErrors + uncorrectedErrors,
calculateScore equals the spec's score formula, zero-denominator guards
included. -/
theorem C3_calculateScore_formula :
    ∀ (lps accuracy gameMode correctedErrors uncorrectedErrors totalErrors totalLetters : ℚ),
    totalErrors = correctedErrors + uncorrectedErrors →
    calculateScore lps accuracy gameMode totalErrors correctedErrors totalLetters =
      scoreFormulaSpec lps accuracy gameMode totalErrors correctedErrors totalLetters := by
  intro lps accuracy gameMode correctedErrors uncorrectedErrors totalErrors totalLetters _
  simp only [calculateScore, scoreFormulaSpec]
  ring

/-- C3, witness: the formula equality at lps 10, accuracy 100, 30-word mode,
2 corrected and 1 uncorrected error over 45 letters. -/
theorem C3_witness :
    calculateScore 10 100 30 3 2 45 = scoreFormulaSpec 10 100 30 3 2 45 :=
  C3_calculateScore_formula 10 100 30 2 1 3 45 (by norm_num)

/-- C4.  The submission endpoint is a compare-and-replace keyed on
(player_name, game_mode): with no matching row a new row is inserted with
isNewBest = true, and submitting the same body again leaves exactly one row
for the key and answers isNewBest = false with the first row's id; with a
matching best row, a strictly greater score overwrites that row in place
(isNewBest = true) and a smaller-or-equal score mutates nothing and returns
the existing id with isNewBest = false. -/
theorem C4_compare_and_replace :
    (∀ (db : List StoredResult) (n1 n2 : ℕ) (b : GameResult),
      validateGameResult b = none →
      matchingRows db b.player_name b.game_mode = [] →
      postGameResult db n1 b = (.ok true (some n1), db ++ [insertedRow n1 b]) ∧
      (matchingRows (postGameResult (postGameResult db n1 b).2 n2 b).2
          b.player_name b.game_mode).length = 1 ∧
      (postGameResult (postGameResult db n1 b).2 n2 b).1 = .ok false (some n1)) ∧
    (∀ (db : List StoredResult) (nextId : ℕ) (b : GameResult) (ex : StoredResult),
      validateGameResult b = none →
      bestRow (matchingRows db b.player_name b.game_mode) = some ex →
      b.score > ex.score →
      postGameResult db nextId b =
        (.ok true (some ex.id), db.map fun r => if r.id = ex.id then overwriteRow r b else r)) ∧
    (∀ (db : List StoredResult) (nextId : ℕ) (b : GameResult) (ex : StoredResult),
      validateGameResult b = none →
      bestRow (matchingRows db b.player_name b.game_mode) = some ex →
      b.score ≤ ex.score →
      postGameResult db nextId b = (.ok false (some ex.id), db)) := by
  refine ⟨?_, fun db nextId b ex hv hbest hsc => post_update hv hbest hsc,
    fun db nextId b ex hv hbest hle => post_keep hv hbest hle⟩
  intro db n1 n2 b hv hm
  have h1 := @post_insert db n1 b hv hm
  have hm2 := @matchingRows_self_append db n1 b hm
  have hbest2 : bestRow (matchingRows (db ++ [insertedRow n1 b]) b.player_name b.game_mode)
      = some (insertedRow n1 b) := by rw [hm2]; rfl
  have h2 := @post_keep (db ++ [insertedRow n1 b]) n2 b (insertedRow n1 b) hv hbest2 (le_refl b.score)
  refine ⟨h1, ?_, ?_⟩
  · rw [h1]
    simp only [h2]
    rw [hm2]
    rfl
  · rw [h1]
    simp only [h2]
    rfl

/-- C4, witness: submitting exBody12 twice into an empty table inserts one
row and the second response is isNewBest = false with that row's id. -/
theorem C4_witness :
    postGameResult [] 1 exBody12 = (.ok true (some 1), [] ++ [insertedRow 1 exBody12]) ∧
    (matchingRows (postGameResult (postGameResult [] 1 exBody12).2 2 exBody12).2
        exBody12.player_name exBody12.game_mode).length = 1 ∧
    (postGameResult (postGameResult [] 1 exBody12).2 2 exBody12).1 = .ok false (some 1) :=
  C4_compare_and_replace.1 [] 1 2 exBody12 validate_exBody12 rfl

/-- C5, counterexample.  The submission exBodyT0 has time = 0 seconds —
far below the claimed 1.5 s minimum of the 15-word mode — yet passes
validation and is written to the leaderboard. -/
theorem C5_counterexample :
    validateGameResult exBodyT0 = none ∧ exBodyT0.time = 0 ∧
    exBodyT0.game_mode = 15 ∧
    postGameResult [] 1 exBodyT0 = (.ok true (some 1), [insertedRow 1 exBodyT0]) :=
  ⟨validate_exBodyT0, rfl, rfl, post_insert validate_exBodyT0 rfl⟩

/-- C5, amended.  The validator never inspects the time field: replacing it
with any value leaves the validation outcome unchanged, so no mode-specific
time window is enforced. -/
theorem C5_time_not_validated :
    ∀ (b : GameResult) (t : ℚ),
    validateGameResult { b with time := t } = validateGameResult b :=
  fun _ _ => rfl

/-- C6, counterexample.  lps = 60.0001 passes the lps gate (and even the
whole pipeline, with a consistent ms_per_letter), though the claim says it
is rejected: the gate's ceiling is 100, not 60, and 0 is not excluded. -/
theorem C6_counterexample :
    lpsGateOk (600001 / 10000) = true ∧ ((600001 / 10000 : ℚ) > 60) ∧
    validateGameResult exBody60 = none ∧
    postGameResult [] 1 exBody60 = (.ok true (some 1), [insertedRow 1 exBody60]) := by
  refine ⟨?_, by norm_num, validate_exBody60, post_insert validate_exBody60 rfl⟩
  have h1 : ¬ ((600001 / 10000 : ℚ) < 0) := by norm_num
  have h2 : ¬ ((600001 / 10000 : ℚ) > 100) := by norm_num
  simp [lpsGateOk, h1, h2]

/-- C6, amended.  The lps gate accepts exactly the closed interval
[0, 100]: lps = 60.0 passes, but so do 0 and 60.0001; only negative values
or values above 100 are rejected. -/
theorem C6_lps_gate_range : ∀ l : ℚ, lpsGateOk l = true ↔ 0 ≤ l ∧ l ≤ 100 := by
  intro l
  simp [lpsGateOk, Bool.or_eq_false_iff, decide_eq_false_iff_not, not_lt]

/-- C6, witness: the boundary value 60 passes the gate. -/
theorem C6_witness : lpsGateOk 60 = true :=
  (C6_lps_gate_range 60).mpr (by norm_num)

/-- C7, counterexample.  exBody107's ms_per_letter differs from 1000/lps by
7 ms — beyond the claimed 5 ms tolerance — yet validation passes and the
row is written. -/
theorem C7_counterexample :
    validateGameResult exBody107 = none ∧
    |exBody107.ms_per_letter - 1000 / exBody107.lps| > 5 ∧
    postGameResult [] 1 exBody107 = (.ok true (some 1), [insertedRow 1 exBody107]) := by
  refine ⟨validate_exBody107, ?_, post_insert validate_exBody107 rfl⟩
  norm_num [exBody107, lt_abs]

/-- C7, amended.  ms_per_letter must lie in [0, 1000000] and agree with
1000/lps within 10 ms (not 5 ms); a violating submission is answered with
exactly "ms_per_letter calculation mismatch" and the table is untouched. -/
theorem C7_ms_tolerance :
    (∀ b : GameResult, validateGameResult b = none →
      0 ≤ b.ms_per_letter ∧ b.ms_per_letter ≤ 1000000 ∧
      |b.ms_per_letter - 1000 / b.lps| ≤ 10) ∧
    (∀ (db : List StoredResult) (nextId : ℕ) (b : GameResult),
      validateGameResult b = some "ms_per_letter calculation mismatch" →
      postGameResult db nextId b = (.apiError "ms_per_letter calculation mismatch", db)) := by
  constructor
  · intro b hv
    have hf := validateGameResult_none_facts hv
    exact ⟨hf.2.2.2.2.2.2.2.2.1, hf.2.2.2.2.2.2.2.2.2.1,
      hf.2.2.2.2.2.2.2.2.2.2.2.2.2⟩
  · intro db nextId b hv
    simp [postGameResult, hv]

/-- C7, witness: the accepted exBody107 satisfies the 10 ms bound, and the
17 ms-off exBodyMsBad is rejected with the exact reason and no mutation. -/
theorem C7_witness :
    (0 ≤ exBody107.ms_per_letter ∧ exBody107.ms_per_letter ≤ 1000000 ∧
     |exBody107.ms_per_letter - 1000 / exBody107.lps| ≤ 10) ∧
    postGameResult [] 1 exBodyMsBad
      = (.apiError "ms_per_letter calculation mismatch", []) :=
  ⟨C7_ms_tolerance.1 exBody107 validate_exBody107,
   C7_ms_tolerance.2 [] 1 exBodyMsBad validate_exBodyMsBad⟩

/-- C8, counterexample.  getLeaderboard orders by the read-time
accuracy-weighted score lps·(accuracy/100)², not by the stored score:
exRowA stores score 100 and exRowB stores score 1, yet exRowB is returned
first. -/
theorem C8_counterexample :
    getLeaderboard [exRowA, exRowB] 15 10 = [exRowB, exRowA] ∧
    exRowB.score < exRowA.score :=
  ⟨getLeaderboard_exRows, by norm_num [exRowA, exRowB]⟩

/-- C8, amended.  getLeaderboard returns only records of the requested mode,
at most limit of them, and adjacent entries are ordered by the comparator:
recomputed accuracy-weighted score descending with 1e-4 tolerance, ties by
accuracy descending with 1e-2 tolerance, then lps descending. -/
theorem C8_leaderboard_order :
    ∀ (db : List StoredResult) (gameMode : ℤ) (limit : ℕ),
    (∀ r ∈ getLeaderboard db gameMode limit, r.game_mode = gameMode) ∧
    (getLeaderboard db gameMode limit).length ≤ limit ∧
    (getLeaderboard db gameMode limit).Chain' leaderboardLe := by
  intro db mode limit
  refine ⟨?_, ?_, ?_⟩
  · intro r hr
    unfold getLeaderboard at hr
    have h1 := List.take_subset _ _ hr
    have h2 := (List.mem_insertionSort leaderboardLe).mp h1
    have h3 := List.take_subset _ _ h2
    have h4 := List.mem_filter.mp h3
    simpa using h4.2
  · unfold getLeaderboard
    exact List.length_take_le _ _
  · unfold getLeaderboard
    exact List.Chain'.prefix
      (chain'_insertionSort leaderboardLe leaderboardLe_total _)
      (List.take_prefix _ _)

/-- C8, witness: the mode filter applied to a returned record of the
two-row leaderboard. -/
theorem C8_witness : exRowB.game_mode = 15 :=
  (C8_leaderboard_order [exRowA, exRowB] 15 10).1 exRowB
    (by rw [getLeaderboard_exRows]; exact List.mem_cons_self _ _)

set_option maxHeartbeats 1600000 in
/-- C9.  For any fixed accuracy, calculateRank is monotone non-decreasing
in the score: a larger score never yields a lower tier, under the top-down
first-match evaluation of the six tiers. -/
theorem C9_calculateRank_monotone :
    ∀ (accuracy s1 s2 : ℚ), s1 ≤ s2 →
    rankTier (calculateRank s1 accuracy) ≤ rankTier (calculateRank s2 accuracy) := by
  intro a s1 s2 h
  rw [rankTier_calculateRank, rankTier_calculateRank]
  unfold tierOf
  split_ifs <;> (try norm_num) <;>
    (exfalso
     simp only [not_and_or, not_le] at *
     casesm* _ ∧ _, _ ∨ _ <;> linarith)

/-- C9, witness: monotone at accuracy 90 between scores 5 and 8. -/
theorem C9_witness :
    rankTier (calculateRank 5 90) ≤ rankTier (calculateRank 8 90) :=
  C9_calculateRank_monotone 90 5 8 (by norm_num)

/-- C10.  Every row the submission endpoint writes carries the client-sent
rank string verbatim, and that string is one of the six ALLOWED_RANKS
labels — membership is checked before any write and the stored rank is
never recomputed from score and accuracy. -/
theorem C10_rank_stored_verbatim :
    ∀ (db : List StoredResult) (nextId : ℕ) (b : GameResult),
    ∀ r ∈ (postGameResult db nextId b).2,
    r ∈ db ∨ (r.rank = b.rank ∧ r.rank ∈ ALLOWED_RANKS) := by
  intro db nextId b r hr
  rcases postGameResult_written hr with hmem | ⟨hv, -, hrk⟩
  · exact Or.inl hmem
  · exact Or.inr ⟨hrk, by rw [hrk]; exact (validateGameResult_none_facts hv).1⟩

/-- C10, witness: the row inserted for exBody12 stores the client's rank
label verbatim — even though calculateRank at that score and accuracy
would give a different label. -/
theorem C10_witness :
    ((insertedRow 1 exBody12).rank = exBody12.rank ∧
     (insertedRow 1 exBody12).rank ∈ ALLOWED_RANKS) ∧
    exBody12.rank ≠ calculateRank exBody12.score exBody12.accuracy := by
  refine ⟨?_, ?_⟩
  · have h := C10_rank_stored_verbatim [] 1 exBody12 (insertedRow 1 exBody12)
      (by simp [post_exBody12])
    rcases h with hmem | hok
    · exact absurd hmem (List.not_mem_nil _)
    · exact hok
  · simp only [exBody12, calculateRank]
    norm_num
    decide
